import Mathlib

/-!
# Verification of the gcp-seo-tracker SEO analysis utilities

Shallow embedding of `app/utils/seo_analyzer.py`, `app/utils/web_crawler.py`
and `app/tools/html_parser.py`.

Modelling conventions:
* Python dictionaries that may lack a key are modelled with `Option` fields;
  `dict.get(k, default)` becomes `Option.getD`.
* Python truthiness of strings (`if not title`) is modelled explicitly:
  `None` and `""` are both falsy.
* Machine floats appearing in the code (`passed/total*100`, `count/len*100`,
  `with_alt/len`, `avg_words`) are modelled with exact rationals.  Python
  `round` is round-half-to-even; for every value reachable in this program the
  float computation and the exact rational computation round identically
  (denominators are tiny, so results are never within a float error of a
  half-integer tie except when the tie is exactly representable).
* Numeric interpolation inside message strings is rendered with `toString`;
  only the list structure of the messages (never the rendered digits) is used
  by any theorem.
* `BeautifulSoup` parsing is external library behaviour: a parsed page is
  modelled as the record of data the extractor functions read from it, and the
  tokeniser regex of `extract_keywords` is modelled as the token stream it
  yields.
-/

namespace SeoTracker

/-- Python `round(q)`: round half to even (banker's rounding), on exact
rationals. -/
def pyRound (q : ℚ) : ℤ :=
  let f : ℤ := ⌊q⌋
  let frac : ℚ := q - f
  if frac < 1/2 then f
  else if 1/2 < frac then f + 1
  else if f % 2 = 0 then f else f + 1

/-- Python `round(q, d)`: round half to even at `d` decimal digits. -/
def pyRoundTo (d : Nat) (q : ℚ) : ℚ :=
  (pyRound (q * (10 : ℚ) ^ d) : ℚ) / (10 : ℚ) ^ d

/-- Python string truthiness on an optional string: `None` and `""` are falsy.
`truthy o` is `some s` exactly when the value is present and non-empty. -/
def truthy : Option String → Option String
  | none => none
  | some s => if s.isEmpty then none else some s

/-- Python `str.strip()`: remove leading and trailing whitespace. -/
def pyStrip (s : String) : String :=
  ⟨((s.toList.dropWhile Char.isWhitespace).reverse.dropWhile
      Char.isWhitespace).reverse⟩

/-- Split a character list at every whitespace character (producing empty
groups for adjacent separators). -/
def splitWsAux : List Char → List (List Char)
  | [] => [[]]
  | c :: rest =>
    match splitWsAux rest with
    | [] => [[c]]
    | w :: ws => if c.isWhitespace then [] :: w :: ws else (c :: w) :: ws

/-- `str.split()` with no argument: split on whitespace runs, dropping empty
pieces. -/
def pyWords (s : String) : List String :=
  ((splitWsAux s.toList).map (fun l => (⟨l⟩ : String))).filter
    (fun w => ¬ w.isEmpty)

/-! ## Data model of the crawl data (`web_crawler.crawl_webpage` output) -/

/-- One entry of the `keywords` list: `{'word': …, 'count': …, 'percentage': …}`. -/
structure Keyword where
  word : String
  count : Nat
  percentage : ℚ
deriving Repr, DecidableEq

/-- An `img` tag as seen by `extract_images`: each attribute is either absent
or a string. -/
structure ImgTag where
  src : Option String
  alt : Option String
  title : Option String
  width : Option String
  height : Option String
deriving Repr, DecidableEq

/-- One entry of the `images` list produced by `extract_images`. -/
structure ImageOut where
  src : String
  alt : String
  title : String
  width : String
  height : String
deriving Repr, DecidableEq

/-- An `a` tag with an `href` attribute, as selected by
`soup.find_all('a', href=True)`. -/
structure ATag where
  href : String
  text : String
  title : Option String
deriving Repr, DecidableEq

/-- One entry of the `links` list produced by `extract_links`. -/
structure Link where
  href : String
  text : String
  title : String
deriving Repr, DecidableEq

/-- The `headings` dictionary: lists of stripped heading texts per level. -/
structure Headings where
  h1 : List String := []
  h2 : List String := []
  h3 : List String := []
  h4 : List String := []
  h5 : List String := []
  h6 : List String := []
deriving Repr, DecidableEq

/-- The dictionary produced by `crawl_webpage` on success (and consumed by
`SEOAnalyzer.analyze_seo`).  The `error` field models the presence of an
`'error'` key; fields a dictionary might lack are `Option`s, and `url` absent
is modelled as `""` (the code only ever feeds it to `_extract_domain` with
default `''`). -/
structure CrawlData where
  error : Option String := none
  url : String := ""
  title : Option String := none
  meta_description : Option String := none
  headings : Headings := {}
  images : List ImageOut := []
  paragraphs : List String := []
  links : List Link := []
  keywords : List Keyword := []
  word_count : Nat := 0
  status_code : Option Nat := none
deriving Repr, DecidableEq

/-! ## Data model of the analysis result (`analyze_seo` output) -/

structure TitleDetail where
  status : String
  length : Nat
  content : Option String
deriving Repr, DecidableEq

structure HeadingLevelDetail where
  count : Nat
  content : List String
deriving Repr, DecidableEq

structure HeadingsDetail where
  h1 : HeadingLevelDetail
  h2 : HeadingLevelDetail
  h3 : HeadingLevelDetail
  h4 : HeadingLevelDetail
  h5 : HeadingLevelDetail
  h6 : HeadingLevelDetail
deriving Repr, DecidableEq

/-- `details['images']`; the `alt_ratio` key is only written on the non-empty
branch. -/
structure ImagesDetail where
  total : Nat
  with_alt : Nat
  without_alt : Nat
  alt_ratio : Option ℚ := none
deriving Repr, DecidableEq

/-- `details['paragraphs']`; `short_paragraphs` is only written on the
non-empty branch. -/
structure ParagraphsDetail where
  total : Nat
  average_words : ℚ
  short_paragraphs : Option Nat := none
deriving Repr, DecidableEq

structure KeywordsDetail where
  top_keywords : List Keyword
  density_issues : List String
deriving Repr, DecidableEq

structure LinksDetail where
  total : Nat
  internal : Nat
  external : Nat
deriving Repr, DecidableEq

structure ContentDetail where
  word_count : Nat
  status : String
deriving Repr, DecidableEq

/-- `analysis['details']`: each key is absent until its check writes it. -/
structure Details where
  title : Option TitleDetail := none
  meta_description : Option TitleDetail := none
  headings : Option HeadingsDetail := none
  images : Option ImagesDetail := none
  paragraphs : Option ParagraphsDetail := none
  keywords : Option KeywordsDetail := none
  links : Option LinksDetail := none
  content : Option ContentDetail := none
deriving Repr, DecidableEq

/-- The mutable `analysis` dictionary threaded through the check methods. -/
structure Analysis where
  url : String
  seo_score : ℤ
  total_checks : Nat
  passed_checks : Nat
  issues : List String
  recommendations : List String
  details : Details
deriving Repr, DecidableEq

/-- `SEOAnalyzer.analyze_seo` returns either the early error dictionary
`{'error': …, 'seo_score': 0}` or the full analysis dictionary. -/
inductive SEOResult where
  | err (error : String) (seo_score : ℤ)
  | ok (analysis : Analysis)
deriving Repr, DecidableEq

/-! ## The `seo_rules` table from `SEOAnalyzer.__init__` -/

def title_length_min : Nat := 30
def title_length_max : Nat := 60
def meta_description_length_min : Nat := 120
def meta_description_length_max : Nat := 160
def keyword_density_max : ℚ := 3
def image_alt_ratio_min : ℚ := 8/10
def internal_links_min : Nat := 3
def paragraph_min_words : Nat := 20

/-! ## `SEOAnalyzer._extract_domain`

`re.search(r'https?://([^/]+)', url)`: scan for the first position where
`http://` or `https://` (the `s?` is greedy) is followed by at least one
character other than `/`; the captured group is the run of non-`/` characters
after the scheme separator.  No match yields `''`. -/

/-- If the regex `https?://([^/]+)` matches at the head of `l`, return the
captured host characters. -/
def hostAtHead (l : List Char) : Option (List Char) :=
  if ['h','t','t','p','s',':','/','/'].isPrefixOf l then
    match (l.drop 8).takeWhile (fun c => c ≠ '/') with
    | [] => none
    | h => some h
  else if ['h','t','t','p',':','/','/'].isPrefixOf l then
    match (l.drop 7).takeWhile (fun c => c ≠ '/') with
    | [] => none
    | h => some h
  else none

/-- `re.search` semantics: try each start position from the left. -/
def domainScan : List Char → List Char
  | [] => []
  | c :: rest =>
    match hostAtHead (c :: rest) with
    | some h => h
    | none => domainScan rest

/-- `SEOAnalyzer._extract_domain`. -/
def extract_domain (url : String) : String :=
  ⟨domainScan url.toList⟩

/-! ## The check methods of `SEOAnalyzer`

Each `_analyze_*` method mutates the `analysis` dictionary; here each is a
function `CrawlData → Analysis → Analysis`. -/

/-- `SEOAnalyzer._analyze_title`. -/
def analyzeTitle (cd : CrawlData) (a : Analysis) : Analysis :=
  let a := { a with total_checks := a.total_checks + 1 }
  match truthy cd.title with
  | none =>
    { a with
      issues := a.issues ++ ["Title tag missing"]
      recommendations := a.recommendations ++
        ["Add a meaningful title tag to the page"]
      details.title := some ⟨"missing", 0, none⟩ }
  | some t =>
    let len := t.length
    let a := { a with details.title := some ⟨"exists", len, some t⟩ }
    if len < title_length_min then
      { a with
        issues := a.issues ++
          ["Title too short (" ++ toString len ++ " characters)"]
        recommendations := a.recommendations ++
          ["Title should be at least " ++ toString title_length_min ++
            " characters"] }
    else if title_length_max < len then
      { a with
        issues := a.issues ++
          ["Title too long (" ++ toString len ++ " characters)"]
        recommendations := a.recommendations ++
          ["Title should be at most " ++ toString title_length_max ++
            " characters"] }
    else
      { a with
        passed_checks := a.passed_checks + 1
        details.title := some ⟨"optimal", len, some t⟩ }

/-- `SEOAnalyzer._analyze_meta_description`. -/
def analyzeMetaDescription (cd : CrawlData) (a : Analysis) : Analysis :=
  let a := { a with total_checks := a.total_checks + 1 }
  match truthy cd.meta_description with
  | none =>
    { a with
      issues := a.issues ++ ["Meta description missing"]
      recommendations := a.recommendations ++
        ["Add meta description to the page"]
      details.meta_description := some ⟨"missing", 0, none⟩ }
  | some d =>
    let len := d.length
    let a := { a with details.meta_description := some ⟨"exists", len, some d⟩ }
    if len < meta_description_length_min then
      { a with
        issues := a.issues ++
          ["Meta description too short (" ++ toString len ++ " characters)"]
        recommendations := a.recommendations ++
          ["Meta description should be at least " ++
            toString meta_description_length_min ++ " characters"] }
    else if meta_description_length_max < len then
      { a with
        issues := a.issues ++
          ["Meta description too long (" ++ toString len ++ " characters)"]
        recommendations := a.recommendations ++
          ["Meta description should be at most " ++
            toString meta_description_length_max ++ " characters"] }
    else
      { a with
        passed_checks := a.passed_checks + 1
        details.meta_description := some ⟨"optimal", len, some d⟩ }

/-- `SEOAnalyzer._check_heading_hierarchy`. -/
def check_heading_hierarchy (hs : Headings) : Bool :=
  let has_h1 := decide (0 < hs.h1.length)
  let has_h2 := decide (0 < hs.h2.length)
  let has_h3 := decide (0 < hs.h3.length)
  let has_h4 := decide (0 < hs.h4.length)
  if !has_h1 && has_h2 then false
  else if !has_h2 && has_h3 then false
  else if !has_h3 && has_h4 then false
  else true

/-- `SEOAnalyzer._analyze_headings`: increments `total_checks` twice, once
for the H1-count check and once for the hierarchy check. -/
def analyzeHeadings (cd : CrawlData) (a : Analysis) : Analysis :=
  let hs := cd.headings
  let a := { a with total_checks := a.total_checks + 1 }
  let h1_count := hs.h1.length
  let hd : HeadingsDetail :=
    ⟨⟨h1_count, hs.h1⟩, ⟨hs.h2.length, hs.h2⟩, ⟨hs.h3.length, hs.h3⟩,
      ⟨hs.h4.length, hs.h4⟩, ⟨hs.h5.length, hs.h5⟩, ⟨hs.h6.length, hs.h6⟩⟩
  let a := { a with details.headings := some hd }
  let a :=
    if h1_count = 0 then
      { a with
        issues := a.issues ++ ["H1 tag missing"]
        recommendations := a.recommendations ++
          ["Add one H1 tag to the page"] }
    else if 1 < h1_count then
      { a with
        issues := a.issues ++
          ["Multiple H1 tags (" ++ toString h1_count ++ " count)"]
        recommendations := a.recommendations ++
          ["Page should have only one H1 tag"] }
    else
      { a with passed_checks := a.passed_checks + 1 }
  let a := { a with total_checks := a.total_checks + 1 }
  if check_heading_hierarchy hs then
    { a with passed_checks := a.passed_checks + 1 }
  else
    { a with
      issues := a.issues ++ ["Heading hierarchy broken"]
      recommendations := a.recommendations ++
        ["Use heading tags in logical hierarchy (H1->H2->H3...)"] }

/-- `SEOAnalyzer._analyze_images`; skips the check entirely when the `images`
list is empty. -/
def analyzeImages (cd : CrawlData) (a : Analysis) : Analysis :=
  let images := cd.images
  if images.isEmpty then
    { a with details.images := some ⟨0, 0, 0, none⟩ }
  else
    let a := { a with total_checks := a.total_checks + 1 }
    let images_with_alt := (images.filter (fun img => ¬ (pyStrip img.alt).isEmpty)).length
    let images_without_alt := images.length - images_with_alt
    let ratio : ℚ := (images_with_alt : ℚ) / images.length
    let imgDetail : ImagesDetail :=
      ⟨images.length, images_with_alt, images_without_alt,
        some (pyRoundTo 2 ratio)⟩
    let a := { a with details.images := some imgDetail }
    if ratio < image_alt_ratio_min then
      { a with
        issues := a.issues ++
          [toString images_without_alt ++ " images missing alt text"]
        recommendations := a.recommendations ++
          ["Add descriptive alt text to all images"] }
    else
      { a with passed_checks := a.passed_checks + 1 }

/-- `SEOAnalyzer._analyze_paragraphs`; skips the check entirely when the
`paragraphs` list is empty. -/
def analyzeParagraphs (cd : CrawlData) (a : Analysis) : Analysis :=
  let paragraphs := cd.paragraphs
  if paragraphs.isEmpty then
    { a with details.paragraphs := some ⟨0, 0, none⟩ }
  else
    let word_counts := paragraphs.map (fun p => (pyWords p).length)
    let avg_words : ℚ := (word_counts.sum : ℚ) / word_counts.length
    let pDetail : ParagraphsDetail :=
      ⟨paragraphs.length, pyRoundTo 1 avg_words,
        some (word_counts.filter (fun wc => wc < paragraph_min_words)).length⟩
    let a := { a with details.paragraphs := some pDetail }
    let a := { a with total_checks := a.total_checks + 1 }
    if (paragraph_min_words : ℚ) ≤ avg_words then
      { a with passed_checks := a.passed_checks + 1 }
    else
      { a with
        issues := a.issues ++
          ["Paragraphs too short (average " ++ toString (pyRoundTo 1 avg_words) ++
            " words)"]
        recommendations := a.recommendations ++
          ["Paragraphs should contain at least " ++
            toString paragraph_min_words ++ " words"] }

/-- The density-issue messages built by the loop in
`SEOAnalyzer._analyze_keywords` over the first ten keywords. -/
def densityIssues (cd : CrawlData) : List String :=
  ((cd.keywords.take 10).filter
      (fun k => keyword_density_max < k.percentage)).map
    (fun k => "\"" ++ k.word ++ "\" keyword too dense (" ++
      toString k.percentage ++ "%)")

/-- `SEOAnalyzer._analyze_keywords`; skips the check entirely when the
`keywords` list is empty.  On failure it extends `issues` with one message per
over-dense keyword. -/
def analyzeKeywords (cd : CrawlData) (a : Analysis) : Analysis :=
  let keywords := cd.keywords
  if keywords.isEmpty then
    { a with details.keywords := some ⟨[], []⟩ }
  else
    let top_keywords := keywords.take 10
    let a := { a with details.keywords := some ⟨top_keywords, []⟩ }
    let a := { a with total_checks := a.total_checks + 1 }
    let density_issues := densityIssues cd
    let a := { a with details.keywords := some ⟨top_keywords, density_issues⟩ }
    if density_issues.isEmpty then
      { a with passed_checks := a.passed_checks + 1 }
    else
      { a with
        issues := a.issues ++ density_issues
        recommendations := a.recommendations ++
          ["Keep keyword density between 1-3%"] }

/-- The links of `cd` that survive the `if href:` guard in
`SEOAnalyzer._analyze_links`. -/
def consideredLinks (cd : CrawlData) : List Link :=
  cd.links.filter (fun l => ¬ l.href.isEmpty)

/-- The links classified as internal by `SEOAnalyzer._analyze_links`. -/
def internalLinks (cd : CrawlData) : List Link :=
  (consideredLinks cd).filter
    (fun l => extract_domain l.href = extract_domain cd.url)

/-- The links classified as external by `SEOAnalyzer._analyze_links`. -/
def externalLinks (cd : CrawlData) : List Link :=
  (consideredLinks cd).filter
    (fun l => ¬ (extract_domain l.href = extract_domain cd.url))

/-- `SEOAnalyzer._analyze_links`; skips the check entirely when the `links`
list is empty. -/
def analyzeLinks (cd : CrawlData) (a : Analysis) : Analysis :=
  let links := cd.links
  if links.isEmpty then
    { a with details.links := some ⟨0, 0, 0⟩ }
  else
    let internal_links := internalLinks cd
    let external_links := externalLinks cd
    let lDetail : LinksDetail :=
      ⟨links.length, internal_links.length, external_links.length⟩
    let a := { a with details.links := some lDetail }
    let a := { a with total_checks := a.total_checks + 1 }
    if internal_links_min ≤ internal_links.length then
      { a with passed_checks := a.passed_checks + 1 }
    else
      { a with
        issues := a.issues ++
          ["Internal links count low (" ++ toString internal_links.length ++
            " count)"]
        recommendations := a.recommendations ++
          ["Add at least " ++ toString internal_links_min ++ " internal links"] }

/-- `SEOAnalyzer._analyze_content_length`. -/
def analyzeContentLength (cd : CrawlData) (a : Analysis) : Analysis :=
  let word_count := cd.word_count
  let cDetail : ContentDetail :=
    ⟨word_count,
      if word_count < 300 then "short"
      else if word_count < 1000 then "adequate" else "long"⟩
  let a := { a with details.content := some cDetail }
  let a := { a with total_checks := a.total_checks + 1 }
  if 300 ≤ word_count then
    { a with passed_checks := a.passed_checks + 1 }
  else
    { a with
      issues := a.issues ++
        ["Content too short (" ++ toString word_count ++ " words)"]
      recommendations := a.recommendations ++
        ["Expand content to at least 300 words"] }

/-- `SEOAnalyzer.analyze_seo`. -/
def analyze_seo (cd : CrawlData) : SEOResult :=
  match cd.error with
  | some e => .err e 0
  | none =>
    let a : Analysis :=
      { url := cd.url, seo_score := 0, total_checks := 0, passed_checks := 0
        issues := [], recommendations := [], details := {} }
    let a := analyzeTitle cd a
    let a := analyzeMetaDescription cd a
    let a := analyzeHeadings cd a
    let a := analyzeImages cd a
    let a := analyzeParagraphs cd a
    let a := analyzeKeywords cd a
    let a := analyzeLinks cd a
    let a := analyzeContentLength cd a
    let a :=
      if 0 < a.total_checks then
        { a with seo_score :=
            pyRound ((a.passed_checks : ℚ) / a.total_checks * 100) }
      else a
    .ok a

/-! ## Pass conditions of the individual checks, as predicates on the input -/

/-- `if b then 1 else 0` as a named function, for counting. -/
def ind (b : Bool) : Nat := if b then 1 else 0

def titlePasses (cd : CrawlData) : Bool :=
  match truthy cd.title with
  | none => false
  | some t =>
    !decide (t.length < title_length_min) && !decide (title_length_max < t.length)

def metaPasses (cd : CrawlData) : Bool :=
  match truthy cd.meta_description with
  | none => false
  | some d =>
    !decide (d.length < meta_description_length_min) &&
      !decide (meta_description_length_max < d.length)

def h1Passes (cd : CrawlData) : Bool :=
  !decide (cd.headings.h1.length = 0) && !decide (1 < cd.headings.h1.length)

def hierarchyPasses (cd : CrawlData) : Bool :=
  check_heading_hierarchy cd.headings

def imagesWithAlt (cd : CrawlData) : Nat :=
  (cd.images.filter (fun img => ¬ (pyStrip img.alt).isEmpty)).length

def imagesAltRatio (cd : CrawlData) : ℚ :=
  (imagesWithAlt cd : ℚ) / cd.images.length

def imagesPasses (cd : CrawlData) : Bool :=
  !cd.images.isEmpty && !decide (imagesAltRatio cd < image_alt_ratio_min)

def avgParagraphWords (cd : CrawlData) : ℚ :=
  (((cd.paragraphs.map (fun p => (pyWords p).length)).sum : ℚ)) /
    (cd.paragraphs.map (fun p => (pyWords p).length)).length

def paragraphsPasses (cd : CrawlData) : Bool :=
  !cd.paragraphs.isEmpty &&
    decide ((paragraph_min_words : ℚ) ≤ avgParagraphWords cd)

def keywordsPasses (cd : CrawlData) : Bool :=
  !cd.keywords.isEmpty && (densityIssues cd).isEmpty

def linksPasses (cd : CrawlData) : Bool :=
  !cd.links.isEmpty && decide (internal_links_min ≤ (internalLinks cd).length)

def contentPasses (cd : CrawlData) : Bool :=
  decide (300 ≤ cd.word_count)

/-- Number of `total_checks` increments performed on input `cd`: the title,
meta-description, H1-count, hierarchy and content-length checks always run;
the image, paragraph, keyword and link checks run only on non-empty input. -/
def totalChecksOf (cd : CrawlData) : Nat :=
  4 + ind (!cd.images.isEmpty) + ind (!cd.paragraphs.isEmpty) +
    ind (!cd.keywords.isEmpty) + ind (!cd.links.isEmpty) + 1

/-- Number of `passed_checks` increments performed on input `cd`. -/
def passedChecksOf (cd : CrawlData) : Nat :=
  ind (titlePasses cd) + ind (metaPasses cd) + ind (h1Passes cd) +
    ind (hierarchyPasses cd) + ind (imagesPasses cd) +
    ind (paragraphsPasses cd) + ind (keywordsPasses cd) +
    ind (linksPasses cd) + ind (contentPasses cd)

/-- Number of issue strings appended on input `cd`: one per failing check,
except the keyword check which appends one message per over-dense keyword. -/
def issuesLenOf (cd : CrawlData) : Nat :=
  ind (!titlePasses cd) + ind (!metaPasses cd) + ind (!h1Passes cd) +
    ind (!hierarchyPasses cd) +
    ind (!cd.images.isEmpty && !imagesPasses cd) +
    ind (!cd.paragraphs.isEmpty && !paragraphsPasses cd) +
    (densityIssues cd).length +
    ind (!cd.links.isEmpty && !linksPasses cd) +
    ind (!contentPasses cd)

/-- Number of recommendation strings appended on input `cd`: exactly one per
failing check that ran. -/
def recsLenOf (cd : CrawlData) : Nat :=
  ind (!titlePasses cd) + ind (!metaPasses cd) + ind (!h1Passes cd) +
    ind (!hierarchyPasses cd) +
    ind (!cd.images.isEmpty && !imagesPasses cd) +
    ind (!cd.paragraphs.isEmpty && !paragraphsPasses cd) +
    ind (!cd.keywords.isEmpty && !keywordsPasses cd) +
    ind (!cd.links.isEmpty && !linksPasses cd) +
    ind (!contentPasses cd)

/-! ## Accessors on the result -/

def SEOResult.totalChecks : SEOResult → Nat
  | .err _ _ => 0
  | .ok a => a.total_checks

def SEOResult.passedChecks : SEOResult → Nat
  | .err _ _ => 0
  | .ok a => a.passed_checks

def SEOResult.seoScore : SEOResult → ℤ
  | .err _ s => s
  | .ok a => a.seo_score

def SEOResult.issuesLen : SEOResult → Nat
  | .err _ _ => 0
  | .ok a => a.issues.length

def SEOResult.recsLen : SEOResult → Nat
  | .err _ _ => 0
  | .ok a => a.recommendations.length

/-! ## `web_crawler.extract_keywords`

The tokeniser is external library behaviour (`BeautifulSoup.get_text`, the
regex `\b[a-zA-Z...]+\b` over the lowered text): `extract_keywords` is
embedded as a function of the token stream the regex yields. -/

/-- The `stop_words` set literal of `extract_keywords`, transcribed in source
order (duplicates and multi-word entries included; only membership is ever
used). -/
def stop_words : List String :=
  [
    "the", "a", "an", "and", "or", "but",
    "in", "on", "at", "to", "for", "of",
    "with", "by", "from", "up", "about", "into",
    "through", "during", "before", "after", "above", "below",
    "between", "among", "within", "without", "i", "you",
    "he", "she", "it", "we", "they", "me",
    "him", "her", "us", "them", "my", "your",
    "his", "her", "its", "our", "their", "mine",
    "yours", "hers", "ours", "theirs", "this", "that",
    "these", "those", "some", "any", "each", "every",
    "all", "both", "few", "many", "is", "are",
    "was", "were", "be", "been", "being", "have",
    "has", "had", "having", "do", "does", "did",
    "doing", "will", "would", "could", "should", "may",
    "might", "must", "can", "get", "got", "getting",
    "go", "goes", "went", "going", "come", "came",
    "coming", "see", "saw", "seen", "seeing", "know",
    "knew", "known", "knowing", "think", "thought", "thinking",
    "take", "took", "taken", "taking", "make", "made",
    "making", "give", "gave", "given", "giving", "use",
    "used", "using", "find", "found", "finding", "tell",
    "told", "telling", "ask", "asked", "asking", "work",
    "worked", "working", "try", "tried", "trying", "call",
    "called", "calling", "need", "needed", "needing", "feel",
    "felt", "feeling", "become", "became", "becoming", "leave",
    "left", "leaving", "put", "putting", "mean", "meant",
    "meaning", "keep", "kept", "keeping", "let", "letting",
    "begin", "began", "begun", "beginning", "seem", "seemed",
    "seeming", "help", "helped", "helping", "talk", "talked",
    "talking", "turn", "turned", "turning", "start", "started",
    "starting", "show", "showed", "shown", "showing", "hear",
    "heard", "hearing", "play", "played", "playing", "run",
    "ran", "running", "move", "moved", "moving", "live",
    "lived", "living", "believe", "believed", "believing", "hold",
    "held", "holding", "bring", "brought", "bringing", "happen",
    "happened", "happening", "write", "wrote", "written", "writing",
    "provide", "provided", "providing", "sit", "sat", "sitting",
    "stand", "stood", "standing", "lose", "lost", "losing",
    "pay", "paid", "paying", "meet", "met", "meeting",
    "include", "included", "including", "continue", "continued", "continuing",
    "set", "setting", "learn", "learned", "learnt", "learning",
    "change", "changed", "changing", "lead", "led", "leading",
    "understand", "understood", "understanding", "watch", "watched", "watching",
    "follow", "followed", "following", "stop", "stopped", "stopping",
    "create", "created", "creating", "speak", "spoke", "spoken",
    "speaking", "read", "reading", "allow", "allowed", "allowing",
    "add", "added", "adding", "spend", "spent", "spending",
    "grow", "grew", "grown", "growing", "open", "opened",
    "opening", "walk", "walked", "walking", "win", "won",
    "winning", "offer", "offered", "offering", "remember", "remembered",
    "remembering", "love", "loved", "loving", "consider", "considered",
    "considering", "appear", "appeared", "appearing", "buy", "bought",
    "buying", "wait", "waited", "waiting", "serve", "served",
    "serving", "die", "died", "dying", "send", "sent",
    "sending", "expect", "expected", "expecting", "build", "built",
    "building", "stay", "stayed", "staying", "fall", "fell",
    "fallen", "falling", "cut", "cutting", "reach", "reached",
    "reaching", "kill", "killed", "killing", "remain", "remained",
    "remaining", "not", "no", "yes", "so", "just",
    "now", "then", "here", "there", "where", "when",
    "why", "how", "what", "who", "which", "whose",
    "whom", "very", "too", "also", "well", "still",
    "only", "even", "back", "more", "most", "other",
    "another", "such", "own", "out", "way", "time",
    "new", "first", "last", "long", "great", "little",
    "old", "right", "big", "high", "different", "small",
    "large", "next", "early", "young", "important", "few",
    "public", "bad", "same", "able", "good", "best",
    "better", "worse", "worst", "much", "many", "less",
    "least", "enough", "quite", "rather", "pretty", "really",
    "actually", "certainly", "probably", "perhaps", "maybe", "almost",
    "always", "never", "sometimes", "often", "usually", "again",
    "once", "twice", "ever", "already", "yet", "home",
    "about", "contact", "page", "website", "site", "web",
    "click", "here", "link", "links", "menu", "navigation",
    "nav", "header", "footer", "sidebar", "content", "main",
    "section", "article", "post", "blog", "news", "read",
    "more", "less", "view", "show", "hide", "toggle",
    "button", "form", "input", "submit", "search", "find",
    "results", "result", "page", "pages", "next", "previous",
    "prev", "first", "last", "login", "logout", "sign",
    "register", "account", "user", "users", "admin", "administrator",
    "settings", "options", "preferences", "profile", "dashboard", "panel",
    "control", "manage", "management", "system", "data", "information",
    "info", "details", "description", "title", "name", "email",
    "password", "username", "date", "time", "category", "categories",
    "tag", "tags", "archive", "archives", "recent", "popular",
    "featured", "related", "similar", "share", "social", "facebook",
    "twitter", "instagram", "linkedin", "youtube", "google", "apple",
    "microsoft", "amazon", "meta", "company", "business", "service",
    "services", "product", "products", "solution", "solutions", "team",
    "staff", "member", "members", "client", "clients", "customer",
    "customers", "support", "help", "faq", "privacy", "policy",
    "terms", "conditions", "legal", "copyright", "rights", "reserved",
    "inc", "ltd", "llc", "corp", "corporation", "company",
    "group", "international", "global", "worldwide", "national", "local",
    "cookies", "powered", "powered by", "privacy policy", "terms of service", "terms of use",
    "disclaimer", "contact us", "about us", "our services", "our products", "our team",
    "our company", "our business", "our website", "our blog", "our news", "our articles",
    "our posts", "our pages", "our content", "our information", "our details", "our description",
    "our title", "our name", "our email", "our password", "our username", "our date",
    "our time", "our category", "our categories", "our tag", "our tags", "our archive",
    "our archives", "our recent", "our popular", "our featured", "our related", "our similar",
    "our share", "our social", "our facebook", "our twitter", "our instagram", "our linkedin",
    "our youtube", "our google", "our apple", "our microsoft", "our amazon", "our meta",
    "our company", "our business", "our service", "our services", "our product", "our products",
    "our solution", "our solutions", "our team", "our staff", "our member", "our members",
    "our client", "our clients", "our customer", "our customers", "our support", "our help",
    "our faq", "our privacy", "our policy", "our terms", "our conditions", "our legal",
    "our copyright", "our rights", "our reserved", "our inc", "our ltd", "our llc",
    "our corp", "our corporation", "our group", "our international", "our global", "our worldwide",
    "our national", "our local"
  ]

/-- The tokens surviving the `min_length` filter and then the stop-word
filter (the `filtered_words` list of `extract_keywords`). -/
def filteredWords (min_length : Nat) (tokens : List String) : List String :=
  (tokens.filter (fun w => min_length ≤ w.length)).filter
    (fun w => ¬ stop_words.contains w)

/-- The distinct words of a list in order of first occurrence: the iteration
order of `collections.Counter` (insertion-ordered dictionary). -/
def firstOccurs : List String → List String
  | [] => []
  | w :: rest => w :: firstOccurs (rest.filter (fun x => x ≠ w))
termination_by l => l.length
decreasing_by
  simp only [List.length_cons]
  exact Nat.lt_succ_of_le (List.length_filter_le _ _)

/-- `collections.Counter(ws)` as an association list: keys in first-occurrence
order, each with its multiplicity. -/
def countTokens (ws : List String) : List (String × Nat) :=
  (firstOccurs ws).map (fun w => (w, ws.count w))

/-- The ordering used by `Counter.most_common`: count descending and, on tied
counts, position in the counter (first-occurrence order) ascending.  The
first component is the index attached by `List.enum`. -/
def mcRel : (Nat × String × Nat) → (Nat × String × Nat) → Prop :=
  fun a b => b.2.2 < a.2.2 ∨ (a.2.2 = b.2.2 ∧ a.1 ≤ b.1)

instance : DecidableRel mcRel := fun a b => by unfold mcRel; infer_instance

instance : IsTotal (Nat × String × Nat) mcRel :=
  ⟨by intro a b; unfold mcRel; omega⟩

instance : IsTrans (Nat × String × Nat) mcRel :=
  ⟨by intro a b c hab hbc; unfold mcRel at *; omega⟩

/-- `Counter.most_common(n)`: the documented behaviour is a sort by count
descending in which elements with equal counts keep the order first
encountered; this equals sorting the indexed entries by `mcRel`. -/
def mostCommon (n : Nat) (items : List (String × Nat)) : List (String × Nat) :=
  ((items.enum.insertionSort mcRel).map Prod.snd).take n

/-- `web_crawler.extract_keywords`, over the token stream of the document. -/
def extract_keywords (tokens : List String) (min_length : Nat := 3)
    (top_n : Nat := 20) : List Keyword :=
  let filtered_words := filteredWords min_length tokens
  let word_counts := countTokens filtered_words
  (mostCommon top_n word_counts).map (fun wc =>
    let percentage : ℚ :=
      if filtered_words.isEmpty then 0
      else (wc.2 : ℚ) / filtered_words.length * 100
    ⟨wc.1, wc.2, pyRoundTo 2 percentage⟩)

/-! ## URL resolution (`urllib.parse`, modelled)

`urlparse` and `urljoin` belong to the Python standard library, not to this
repository.  Modelled from the spec: relative references (leading `/` or no
scheme/host) are resolved to absolute URLs against the base URL. -/

def isSchemeChar (c : Char) : Bool :=
  c.isAlphanum || c = '+' || c = '-' || c = '.'

/-- Modelled from the spec: split an initial `scheme:` (non-empty, starting
with a letter) from a URL, as `urllib.parse` does. -/
def takeScheme (l : List Char) : Option (List Char × List Char) :=
  let pre := l.takeWhile isSchemeChar
  match l.drop pre.length with
  | ':' :: rest =>
    match pre with
    | [] => none
    | c :: _ => if c.isAlpha then some (pre, rest) else none
  | _ => none

/-- Modelled from the spec: the `netloc` component of `urlparse` — the host
part present exactly when `//` follows the scheme (or starts the string). -/
def netlocChars (l : List Char) : List Char :=
  let rest :=
    match takeScheme l with
    | some p => p.2
    | none => l
  match rest with
  | '/' :: '/' :: r => r.takeWhile (fun c => (c != '/') && (c != '?') && (c != '#'))
  | _ => []

def netloc (s : String) : String := ⟨netlocChars s.toList⟩

/-- Modelled from the spec: `urllib.parse.urljoin` — absolute references kept,
scheme-relative references adopt the base scheme, root-relative references
replace the base path, other references resolve against the base directory. -/
def urljoin (base url : String) : String :=
  if url.isEmpty then base
  else if (takeScheme url.toList).isSome then url
  else if "//".isPrefixOf url then
    match takeScheme base.toList with
    | some p => (⟨p.1⟩ : String) ++ ":" ++ url
    | none => url
  else
    let bl := base.toList
    let root : List Char :=
      match takeScheme bl with
      | some p =>
        match p.2 with
        | '/' :: '/' :: r =>
          p.1 ++ [':', '/', '/'] ++
            r.takeWhile (fun c => (c != '/') && (c != '?') && (c != '#'))
        | _ => p.1 ++ [':']
      | none => []
    let path : List Char := bl.drop root.length
    if "/".isPrefixOf url then (⟨root⟩ : String) ++ url
    else
      let dir := (path.reverse.dropWhile (fun c => c != '/')).reverse
      (⟨root ++ dir⟩ : String) ++ url

/-! ## `web_crawler.extract_images` and `web_crawler.extract_links` -/

/-- `web_crawler.extract_images`: one output entry is appended per `img` tag;
a truthy `src` that is relative (leading `/` or empty netloc) is resolved
against the base URL; a missing or empty `src` is kept as `''`. -/
def extract_images (imgs : List ImgTag) (base_url : String) : List ImageOut :=
  imgs.map (fun img =>
    let src0 := img.src.getD ""
    let src :=
      if ¬ src0.isEmpty ∧ (src0.startsWith "/" ∨ netloc src0 = "") then
        urljoin base_url src0
      else src0
    ⟨src, img.alt.getD "", img.title.getD "", img.width.getD "", img.height.getD ""⟩)

/-- `web_crawler.extract_links` over the `a[href]` tags. -/
def extract_links (ats : List ATag) (base_url : String) : List Link :=
  ats.map (fun t =>
    let href0 := t.href
    let href :=
      if ¬ href0.isEmpty ∧ (href0.startsWith "/" ∨ netloc href0 = "") then
        urljoin base_url href0
      else href0
    ⟨href, pyStrip t.text, t.title.getD ""⟩)

/-! ## `web_crawler.crawl_webpage` -/

/-- The data the extractor functions read from a parsed page (the
`BeautifulSoup` object): parsing itself is external library behaviour. -/
structure Soup where
  title : Option String := none
  meta_description : Option String := none
  headings : Headings := {}
  imgs : List ImgTag := []
  rawParagraphs : List String := []
  anchors : List ATag := []
  tokens : List String := []
  textWords : Nat := 0
deriving Repr, DecidableEq

/-- Outcome of `requests.get`: either a `RequestException` (timeout, DNS
failure, connection refused, too many redirects, …) or a response with a
status code and a parseable body. -/
inductive FetchOutcome where
  | failure (msg : String)
  | response (status : Nat) (soup : Soup)
deriving Repr, DecidableEq

/-- Modelled from the spec: the message of the `requests.HTTPError` raised by
`Response.raise_for_status` (only its presence matters to any theorem). -/
def httpErrorMsg (status : Nat) (url : String) : String :=
  toString status ++ " Error for url: " ++ url

/-- `web_crawler.crawl_webpage` over an abstract fetch outcome.
`Response.raise_for_status` raises `HTTPError` exactly for status codes in
`[400, 600)` (documented behaviour of the requests library, which is not part
of this repository); both `except` arms return the tagged error dictionary
carrying the message and the URL, so the function is total. -/
def crawl_webpage (url : String) (outcome : FetchOutcome) : CrawlData :=
  match outcome with
  | .failure msg =>
    { error := some ("Error fetching web page: " ++ msg)
      url := url
      status_code := none }
  | .response status soup =>
    if 400 ≤ status ∧ status < 600 then
      { error := some ("Error fetching web page: " ++ httpErrorMsg status url)
        url := url
        status_code := none }
    else
      { error := none
        url := url
        title := soup.title.map pyStrip
        meta_description := soup.meta_description.map pyStrip
        headings := soup.headings
        images := extract_images soup.imgs url
        paragraphs := (soup.rawParagraphs.map pyStrip).filter (fun p => ¬ p.isEmpty)
        links := extract_links soup.anchors url
        keywords := extract_keywords soup.tokens
        word_count := soup.textWords
        status_code := some status }

/-- A crawl-data input on which every check runs: all four skippable
collections are non-empty. -/
def cdAllChecks : CrawlData :=
  { error := none
    url := "http://example.com/"
    title := some "t"
    meta_description := some "d"
    headings := { h1 := ["a"] }
    images := [⟨"http://example.com/i.png", "alt text", "", "", ""⟩]
    paragraphs := ["one two three"]
    links := [⟨"http://example.com/a", "a", ""⟩]
    keywords := [⟨"word", 1, 1⟩]
    word_count := 10
    status_code := some 200 }

/-- A crawl-data input whose keyword check fails with two over-dense
keywords. -/
def cdTwoDense : CrawlData :=
  { keywords := [⟨"aa", 2, 5⟩, ⟨"bb", 2, 5⟩] }

/-! ## `html_parser.get_element_position`

The DOM is modelled as a tree of elements; an element instance is the root
tree together with the path of child indices leading to it.  `Tag.find_all()`
returns all descendant elements in document (pre-)order, and `list.index`
compares with the structural tag equality of BeautifulSoup, modelled by
structural equality of trees (`name` stands in for the local content of the
tag: its name, attributes and text). -/

inductive HTree where
  | node (name : String) (children : List HTree)
deriving Repr

mutual

def HTree.decEq : (a b : HTree) → Decidable (a = b)
  | .node a xs, .node b ys =>
    match String.decEq a b with
    | isFalse h => isFalse (by simp [h])
    | isTrue h =>
      match HTree.decEqList xs ys with
      | isTrue h2 => isTrue (by rw [h, h2])
      | isFalse h2 => isFalse (by simp [h2])

def HTree.decEqList : (xs ys : List HTree) → Decidable (xs = ys)
  | [], [] => isTrue rfl
  | x :: xs, y :: ys =>
    match HTree.decEq x y with
    | isFalse h => isFalse (by simp [h])
    | isTrue h =>
      match HTree.decEqList xs ys with
      | isTrue h2 => isTrue (by rw [h, h2])
      | isFalse h2 => isFalse (by simp [h2])
  | [], _ :: _ => isFalse (by simp)
  | _ :: _, [] => isFalse (by simp)

end

instance : DecidableEq HTree := HTree.decEq

mutual

/-- `tag.find_all()`: all descendant elements, in document order. -/
def HTree.descendants : HTree → List HTree
  | .node _ cs => HTree.descList cs

/-- The descendant elements of a forest, in document order. -/
def HTree.descList : List HTree → List HTree
  | [] => []
  | c :: cs => c :: (HTree.descendants c ++ HTree.descList cs)

end

/-- Navigate to the element at a path of child indices (the identity of an
element instance in the document). -/
def HTree.get? : HTree → List Nat → Option HTree
  | t, [] => some t
  | .node _ cs, i :: p =>
    match cs[i]? with
    | some c => HTree.get? c p
    | none => none

/-- `html_parser.get_element_position`: index of the element in
`tag.find_parent().find_all()` plus one (`0` for the parentless root, and `0`
when `list.index` raises `ValueError`). -/
def get_element_position (root : HTree) (path : List Nat) : Nat :=
  if path.isEmpty then 0
  else
    match root.get? path.dropLast, root.get? path with
    | some parent, some self =>
      let ds := parent.descendants
      if ds.contains self then ds.indexOf self + 1 else 0
    | _, _ => 0

/-- A parent whose first child has a nested child: `div[a[b], c]`. -/
def exTree : HTree := .node "div" [.node "a" [.node "b" []], .node "c" []]

/-- An `img` tag with no attributes at all (in particular no `src`). -/
def imgNoSrc : ImgTag := ⟨none, none, none, none, none⟩

/-- A crawl-data input whose page URL and link hrefs all fail the
`https?://host` pattern. -/
def cdPlainLinks : CrawlData :=
  { url := "notaurl", links := [⟨"x", "", ""⟩, ⟨"y", "", ""⟩, ⟨"z", "", ""⟩] }

/-- A crawl-data input with one matching link and one empty-href link. -/
def cdMixedLinks : CrawlData :=
  { url := "http://h/", links := [⟨"http://h/a", "", ""⟩, ⟨"", "", ""⟩] }

/-- The freshly initialised `analysis` dictionary of `analyze_seo`. -/
def emptyAnalysis : Analysis := ⟨"", 0, 0, 0, [], [], {}⟩

/-! ## Effect of each check on the counters -/

theorem analyzeTitle_total (cd : CrawlData) (a : Analysis) :
    (analyzeTitle cd a).total_checks = a.total_checks + 1 := by
  unfold analyzeTitle
  cases truthy cd.title <;> dsimp only <;> split_ifs <;> rfl

theorem analyzeTitle_passed (cd : CrawlData) (a : Analysis) :
    (analyzeTitle cd a).passed_checks = a.passed_checks + ind (titlePasses cd) := by
  unfold analyzeTitle titlePasses ind
  cases truthy cd.title <;> dsimp only <;> split_ifs <;> simp_all <;> omega

theorem analyzeTitle_issues (cd : CrawlData) (a : Analysis) :
    (analyzeTitle cd a).issues.length = a.issues.length + ind (!titlePasses cd) := by
  unfold analyzeTitle titlePasses ind
  cases truthy cd.title <;> dsimp only <;> split_ifs <;> simp_all <;> omega

theorem analyzeTitle_recs (cd : CrawlData) (a : Analysis) :
    (analyzeTitle cd a).recommendations.length =
      a.recommendations.length + ind (!titlePasses cd) := by
  unfold analyzeTitle titlePasses ind
  cases truthy cd.title <;> dsimp only <;> split_ifs <;> simp_all <;> omega

theorem analyzeTitle_score (cd : CrawlData) (a : Analysis) :
    (analyzeTitle cd a).seo_score = a.seo_score := by
  unfold analyzeTitle
  cases truthy cd.title <;> dsimp only <;> split_ifs <;> rfl

theorem analyzeMetaDescription_total (cd : CrawlData) (a : Analysis) :
    (analyzeMetaDescription cd a).total_checks = a.total_checks + 1 := by
  unfold analyzeMetaDescription
  cases truthy cd.meta_description <;> dsimp only <;> split_ifs <;> rfl

theorem analyzeMetaDescription_passed (cd : CrawlData) (a : Analysis) :
    (analyzeMetaDescription cd a).passed_checks =
      a.passed_checks + ind (metaPasses cd) := by
  unfold analyzeMetaDescription metaPasses ind
  cases truthy cd.meta_description <;> dsimp only <;> split_ifs <;> simp_all <;>
    omega

theorem analyzeMetaDescription_issues (cd : CrawlData) (a : Analysis) :
    (analyzeMetaDescription cd a).issues.length =
      a.issues.length + ind (!metaPasses cd) := by
  unfold analyzeMetaDescription metaPasses ind
  cases truthy cd.meta_description <;> dsimp only <;> split_ifs <;> simp_all <;>
    omega

theorem analyzeMetaDescription_recs (cd : CrawlData) (a : Analysis) :
    (analyzeMetaDescription cd a).recommendations.length =
      a.recommendations.length + ind (!metaPasses cd) := by
  unfold analyzeMetaDescription metaPasses ind
  cases truthy cd.meta_description <;> dsimp only <;> split_ifs <;> simp_all <;>
    omega

theorem analyzeMetaDescription_score (cd : CrawlData) (a : Analysis) :
    (analyzeMetaDescription cd a).seo_score = a.seo_score := by
  unfold analyzeMetaDescription
  cases truthy cd.meta_description <;> dsimp only <;> split_ifs <;> rfl

theorem analyzeHeadings_total (cd : CrawlData) (a : Analysis) :
    (analyzeHeadings cd a).total_checks = a.total_checks + 2 := by
  unfold analyzeHeadings
  dsimp only
  split_ifs <;> rfl

theorem analyzeHeadings_passed (cd : CrawlData) (a : Analysis) :
    (analyzeHeadings cd a).passed_checks =
      a.passed_checks + ind (h1Passes cd) + ind (hierarchyPasses cd) := by
  unfold analyzeHeadings h1Passes hierarchyPasses ind
  dsimp only
  split_ifs <;> simp_all <;> omega

theorem analyzeHeadings_issues (cd : CrawlData) (a : Analysis) :
    (analyzeHeadings cd a).issues.length =
      a.issues.length + ind (!h1Passes cd) + ind (!hierarchyPasses cd) := by
  unfold analyzeHeadings h1Passes hierarchyPasses ind
  dsimp only
  split_ifs <;> simp_all <;> omega

theorem analyzeHeadings_recs (cd : CrawlData) (a : Analysis) :
    (analyzeHeadings cd a).recommendations.length =
      a.recommendations.length + ind (!h1Passes cd) + ind (!hierarchyPasses cd) := by
  unfold analyzeHeadings h1Passes hierarchyPasses ind
  dsimp only
  split_ifs <;> simp_all <;> omega

theorem analyzeHeadings_score (cd : CrawlData) (a : Analysis) :
    (analyzeHeadings cd a).seo_score = a.seo_score := by
  unfold analyzeHeadings
  dsimp only
  split_ifs <;> rfl

theorem analyzeImages_total (cd : CrawlData) (a : Analysis) :
    (analyzeImages cd a).total_checks = a.total_checks + ind (!cd.images.isEmpty) := by
  unfold analyzeImages ind
  dsimp only
  split_ifs <;> simp_all <;> omega

theorem analyzeImages_passed (cd : CrawlData) (a : Analysis) :
    (analyzeImages cd a).passed_checks = a.passed_checks + ind (imagesPasses cd) := by
  unfold analyzeImages imagesPasses imagesAltRatio imagesWithAlt ind
  dsimp only
  split_ifs <;> simp_all <;> first | omega | linarith

theorem analyzeImages_issues (cd : CrawlData) (a : Analysis) :
    (analyzeImages cd a).issues.length =
      a.issues.length + ind (!cd.images.isEmpty && !imagesPasses cd) := by
  unfold analyzeImages imagesPasses imagesAltRatio imagesWithAlt ind
  dsimp only
  split_ifs <;> simp_all <;> first | omega | linarith

theorem analyzeImages_recs (cd : CrawlData) (a : Analysis) :
    (analyzeImages cd a).recommendations.length =
      a.recommendations.length + ind (!cd.images.isEmpty && !imagesPasses cd) := by
  unfold analyzeImages imagesPasses imagesAltRatio imagesWithAlt ind
  dsimp only
  split_ifs <;> simp_all <;> first | omega | linarith

theorem analyzeImages_score (cd : CrawlData) (a : Analysis) :
    (analyzeImages cd a).seo_score = a.seo_score := by
  unfold analyzeImages
  dsimp only
  split_ifs <;> rfl

theorem analyzeParagraphs_total (cd : CrawlData) (a : Analysis) :
    (analyzeParagraphs cd a).total_checks =
      a.total_checks + ind (!cd.paragraphs.isEmpty) := by
  unfold analyzeParagraphs ind
  dsimp only
  split_ifs <;> simp_all <;> omega

theorem analyzeParagraphs_passed (cd : CrawlData) (a : Analysis) :
    (analyzeParagraphs cd a).passed_checks =
      a.passed_checks + ind (paragraphsPasses cd) := by
  unfold analyzeParagraphs paragraphsPasses avgParagraphWords ind
  dsimp only
  split_ifs <;> simp_all <;> first | omega | linarith

theorem analyzeParagraphs_issues (cd : CrawlData) (a : Analysis) :
    (analyzeParagraphs cd a).issues.length =
      a.issues.length + ind (!cd.paragraphs.isEmpty && !paragraphsPasses cd) := by
  unfold analyzeParagraphs paragraphsPasses avgParagraphWords ind
  dsimp only
  split_ifs <;> simp_all <;> first | omega | linarith

theorem analyzeParagraphs_recs (cd : CrawlData) (a : Analysis) :
    (analyzeParagraphs cd a).recommendations.length =
      a.recommendations.length +
        ind (!cd.paragraphs.isEmpty && !paragraphsPasses cd) := by
  unfold analyzeParagraphs paragraphsPasses avgParagraphWords ind
  dsimp only
  split_ifs <;> simp_all <;> first | omega | linarith

theorem analyzeParagraphs_score (cd : CrawlData) (a : Analysis) :
    (analyzeParagraphs cd a).seo_score = a.seo_score := by
  unfold analyzeParagraphs
  dsimp only
  split_ifs <;> rfl

theorem densityIssues_of_empty (cd : CrawlData) (h : cd.keywords = []) :
    densityIssues cd = [] := by
  unfold densityIssues
  simp [h]

theorem analyzeKeywords_total (cd : CrawlData) (a : Analysis) :
    (analyzeKeywords cd a).total_checks =
      a.total_checks + ind (!cd.keywords.isEmpty) := by
  unfold analyzeKeywords ind
  dsimp only
  split_ifs <;> simp_all <;> omega

theorem analyzeKeywords_passed (cd : CrawlData) (a : Analysis) :
    (analyzeKeywords cd a).passed_checks =
      a.passed_checks + ind (keywordsPasses cd) := by
  unfold analyzeKeywords keywordsPasses ind
  dsimp only
  split_ifs <;> simp_all <;> omega

theorem analyzeKeywords_issues (cd : CrawlData) (a : Analysis) :
    (analyzeKeywords cd a).issues.length =
      a.issues.length + (densityIssues cd).length := by
  unfold analyzeKeywords
  dsimp only
  split_ifs with h₁ h₂ <;> simp_all [densityIssues_of_empty]

theorem analyzeKeywords_recs (cd : CrawlData) (a : Analysis) :
    (analyzeKeywords cd a).recommendations.length =
      a.recommendations.length + ind (!cd.keywords.isEmpty && !keywordsPasses cd) := by
  unfold analyzeKeywords keywordsPasses ind
  dsimp only
  split_ifs <;> simp_all <;> omega

theorem analyzeKeywords_score (cd : CrawlData) (a : Analysis) :
    (analyzeKeywords cd a).seo_score = a.seo_score := by
  unfold analyzeKeywords
  dsimp only
  split_ifs <;> rfl

theorem analyzeLinks_total (cd : CrawlData) (a : Analysis) :
    (analyzeLinks cd a).total_checks = a.total_checks + ind (!cd.links.isEmpty) := by
  unfold analyzeLinks ind
  dsimp only
  split_ifs <;> simp_all <;> omega

theorem analyzeLinks_passed (cd : CrawlData) (a : Analysis) :
    (analyzeLinks cd a).passed_checks = a.passed_checks + ind (linksPasses cd) := by
  unfold analyzeLinks linksPasses ind
  dsimp only
  split_ifs <;> simp_all <;> omega

theorem analyzeLinks_issues (cd : CrawlData) (a : Analysis) :
    (analyzeLinks cd a).issues.length =
      a.issues.length + ind (!cd.links.isEmpty && !linksPasses cd) := by
  unfold analyzeLinks linksPasses ind
  dsimp only
  split_ifs <;> simp_all <;> omega

theorem analyzeLinks_recs (cd : CrawlData) (a : Analysis) :
    (analyzeLinks cd a).recommendations.length =
      a.recommendations.length + ind (!cd.links.isEmpty && !linksPasses cd) := by
  unfold analyzeLinks linksPasses ind
  dsimp only
  split_ifs <;> simp_all <;> omega

theorem analyzeLinks_score (cd : CrawlData) (a : Analysis) :
    (analyzeLinks cd a).seo_score = a.seo_score := by
  unfold analyzeLinks
  dsimp only
  split_ifs <;> rfl

theorem analyzeContentLength_total (cd : CrawlData) (a : Analysis) :
    (analyzeContentLength cd a).total_checks = a.total_checks + 1 := by
  unfold analyzeContentLength
  dsimp only
  split_ifs <;> rfl

theorem analyzeContentLength_passed (cd : CrawlData) (a : Analysis) :
    (analyzeContentLength cd a).passed_checks =
      a.passed_checks + ind (contentPasses cd) := by
  unfold analyzeContentLength contentPasses ind
  dsimp only
  split_ifs <;> simp_all <;> omega

theorem analyzeContentLength_issues (cd : CrawlData) (a : Analysis) :
    (analyzeContentLength cd a).issues.length =
      a.issues.length + ind (!contentPasses cd) := by
  unfold analyzeContentLength contentPasses ind
  dsimp only
  split_ifs <;> simp_all <;> omega

theorem analyzeContentLength_recs (cd : CrawlData) (a : Analysis) :
    (analyzeContentLength cd a).recommendations.length =
      a.recommendations.length + ind (!contentPasses cd) := by
  unfold analyzeContentLength contentPasses ind
  dsimp only
  split_ifs <;> simp_all <;> omega

theorem analyzeContentLength_score (cd : CrawlData) (a : Analysis) :
    (analyzeContentLength cd a).seo_score = a.seo_score := by
  unfold analyzeContentLength
  dsimp only
  split_ifs <;> rfl

/-! ## The composed check pipeline -/

theorem checksChain_total (cd : CrawlData) (a : Analysis) :
    (analyzeContentLength cd (analyzeLinks cd (analyzeKeywords cd
      (analyzeParagraphs cd (analyzeImages cd (analyzeHeadings cd
        (analyzeMetaDescription cd (analyzeTitle cd a)))))))).total_checks =
      a.total_checks + totalChecksOf cd := by
  simp only [analyzeContentLength_total, analyzeLinks_total, analyzeKeywords_total,
    analyzeParagraphs_total, analyzeImages_total, analyzeHeadings_total,
    analyzeMetaDescription_total, analyzeTitle_total, totalChecksOf]
  omega

theorem checksChain_passed (cd : CrawlData) (a : Analysis) :
    (analyzeContentLength cd (analyzeLinks cd (analyzeKeywords cd
      (analyzeParagraphs cd (analyzeImages cd (analyzeHeadings cd
        (analyzeMetaDescription cd (analyzeTitle cd a)))))))).passed_checks =
      a.passed_checks + passedChecksOf cd := by
  simp only [analyzeContentLength_passed, analyzeLinks_passed, analyzeKeywords_passed,
    analyzeParagraphs_passed, analyzeImages_passed, analyzeHeadings_passed,
    analyzeMetaDescription_passed, analyzeTitle_passed, passedChecksOf]
  omega

theorem checksChain_issues (cd : CrawlData) (a : Analysis) :
    (analyzeContentLength cd (analyzeLinks cd (analyzeKeywords cd
      (analyzeParagraphs cd (analyzeImages cd (analyzeHeadings cd
        (analyzeMetaDescription cd (analyzeTitle cd a)))))))).issues.length =
      a.issues.length + issuesLenOf cd := by
  simp only [analyzeContentLength_issues, analyzeLinks_issues, analyzeKeywords_issues,
    analyzeParagraphs_issues, analyzeImages_issues, analyzeHeadings_issues,
    analyzeMetaDescription_issues, analyzeTitle_issues, issuesLenOf]
  omega

theorem checksChain_recs (cd : CrawlData) (a : Analysis) :
    (analyzeContentLength cd (analyzeLinks cd (analyzeKeywords cd
      (analyzeParagraphs cd (analyzeImages cd (analyzeHeadings cd
        (analyzeMetaDescription cd (analyzeTitle cd a)))))))).recommendations.length =
      a.recommendations.length + recsLenOf cd := by
  simp only [analyzeContentLength_recs, analyzeLinks_recs, analyzeKeywords_recs,
    analyzeParagraphs_recs, analyzeImages_recs, analyzeHeadings_recs,
    analyzeMetaDescription_recs, analyzeTitle_recs, recsLenOf]
  omega

theorem checksChain_score (cd : CrawlData) (a : Analysis) :
    (analyzeContentLength cd (analyzeLinks cd (analyzeKeywords cd
      (analyzeParagraphs cd (analyzeImages cd (analyzeHeadings cd
        (analyzeMetaDescription cd (analyzeTitle cd a)))))))).seo_score =
      a.seo_score := by
  simp only [analyzeContentLength_score, analyzeLinks_score, analyzeKeywords_score,
    analyzeParagraphs_score, analyzeImages_score, analyzeHeadings_score,
    analyzeMetaDescription_score, analyzeTitle_score]

/-! ## Whole-procedure lemmas -/

theorem analyze_seo_total (cd : CrawlData) (h : cd.error = none) :
    (analyze_seo cd).totalChecks = totalChecksOf cd := by
  unfold analyze_seo
  rw [h]
  dsimp only
  split_ifs <;> simp [SEOResult.totalChecks, checksChain_total]

theorem analyze_seo_passed (cd : CrawlData) (h : cd.error = none) :
    (analyze_seo cd).passedChecks = passedChecksOf cd := by
  unfold analyze_seo
  rw [h]
  dsimp only
  split_ifs <;> simp [SEOResult.passedChecks, checksChain_passed]

theorem analyze_seo_issuesLen (cd : CrawlData) (h : cd.error = none) :
    (analyze_seo cd).issuesLen = issuesLenOf cd := by
  unfold analyze_seo
  rw [h]
  dsimp only
  split_ifs <;> simp [SEOResult.issuesLen, checksChain_issues]

theorem analyze_seo_recsLen (cd : CrawlData) (h : cd.error = none) :
    (analyze_seo cd).recsLen = recsLenOf cd := by
  unfold analyze_seo
  rw [h]
  dsimp only
  split_ifs <;> simp [SEOResult.recsLen, checksChain_recs]

theorem totalChecksOf_pos (cd : CrawlData) : 0 < totalChecksOf cd := by
  unfold totalChecksOf
  omega

theorem analyze_seo_score_eq (cd : CrawlData) (h : cd.error = none) :
    (analyze_seo cd).seoScore =
      pyRound ((passedChecksOf cd : ℚ) / (totalChecksOf cd) * 100) := by
  unfold analyze_seo
  rw [h]
  dsimp only
  rw [if_pos]
  · simp only [SEOResult.seoScore, checksChain_passed, checksChain_total]
    norm_num
  · rw [checksChain_total]
    have := totalChecksOf_pos cd
    omega

theorem ind_le_one (b : Bool) : ind b ≤ 1 := by
  cases b <;> simp [ind]

theorem ind_and_le (x y : Bool) : ind (x && y) ≤ ind x := by
  cases x <;> cases y <;> simp [ind]

theorem passedChecksOf_le (cd : CrawlData) :
    passedChecksOf cd ≤ totalChecksOf cd := by
  have h₁ : ind (titlePasses cd) ≤ 1 := ind_le_one _
  have h₂ : ind (metaPasses cd) ≤ 1 := ind_le_one _
  have h₃ : ind (h1Passes cd) ≤ 1 := ind_le_one _
  have h₄ : ind (hierarchyPasses cd) ≤ 1 := ind_le_one _
  have h₅ : ind (imagesPasses cd) ≤ ind (!cd.images.isEmpty) := by
    unfold imagesPasses; exact ind_and_le _ _
  have h₆ : ind (paragraphsPasses cd) ≤ ind (!cd.paragraphs.isEmpty) := by
    unfold paragraphsPasses; exact ind_and_le _ _
  have h₇ : ind (keywordsPasses cd) ≤ ind (!cd.keywords.isEmpty) := by
    unfold keywordsPasses; exact ind_and_le _ _
  have h₈ : ind (linksPasses cd) ≤ ind (!cd.links.isEmpty) := by
    unfold linksPasses; exact ind_and_le _ _
  have h₉ : ind (contentPasses cd) ≤ 1 := ind_le_one _
  unfold passedChecksOf totalChecksOf
  omega

/-! ## Bounds on `pyRound` -/

theorem le_pyRound {q : ℚ} {n : ℤ} (h : (n : ℚ) ≤ q) : n ≤ pyRound q := by
  unfold pyRound
  dsimp only
  have hf : n ≤ ⌊q⌋ := Int.le_floor.mpr h
  split_ifs <;> omega

theorem pyRound_le {q : ℚ} {n : ℤ} (h : q ≤ (n : ℚ)) : pyRound q ≤ n := by
  unfold pyRound
  dsimp only
  have hf : ⌊q⌋ ≤ n := by simpa using Int.floor_le_floor h
  split_ifs with hlt hgt heven
  · exact hf
  · have h2 : (1 : ℚ)/2 ≤ q - ⌊q⌋ := not_lt.mp hlt
    have h3 : ((⌊q⌋ : ℚ)) < (n : ℚ) := by linarith
    have h4 : ⌊q⌋ < n := by exact_mod_cast h3
    omega
  · exact hf
  · have h2 : (1 : ℚ)/2 ≤ q - ⌊q⌋ := not_lt.mp hlt
    have h3 : ((⌊q⌋ : ℚ)) < (n : ℚ) := by linarith
    have h4 : ⌊q⌋ < n := by exact_mod_cast h3
    omega

end SeoTracker

namespace SeoTracker

/-! ## Claim C1 -/

/-- C1: for every non-error crawl-data input, the result of `analyze_seo`
satisfies `seo_score = round(passed_checks / total_checks * 100)` when
`total_checks > 0` and `seo_score = 0` when `total_checks = 0`, and always
`total_checks ≥ passed_checks ≥ 0` and `0 ≤ seo_score ≤ 100`. -/
theorem analyze_seo_score_invariant (cd : CrawlData) (h : cd.error = none) :
    (analyze_seo cd).passedChecks ≤ (analyze_seo cd).totalChecks ∧
    (analyze_seo cd).seoScore =
      (if 0 < (analyze_seo cd).totalChecks then
        pyRound (((analyze_seo cd).passedChecks : ℚ) /
          ((analyze_seo cd).totalChecks) * 100)
      else 0) ∧
    0 ≤ (analyze_seo cd).seoScore ∧ (analyze_seo cd).seoScore ≤ 100 := by
  have ht := analyze_seo_total cd h
  have hp := analyze_seo_passed cd h
  have hs := analyze_seo_score_eq cd h
  have hpos := totalChecksOf_pos cd
  have hle := passedChecksOf_le cd
  have htQ : (0 : ℚ) < (totalChecksOf cd : ℚ) := by exact_mod_cast hpos
  have hleQ : ((passedChecksOf cd : ℚ)) ≤ (totalChecksOf cd : ℚ) := by
    exact_mod_cast hle
  refine ⟨?_, ?_, ?_, ?_⟩
  · rw [ht, hp]; exact hle
  · rw [hs, ht, hp, if_pos hpos]
  · rw [hs]
    have h0 : ((0 : ℤ) : ℚ) ≤ (passedChecksOf cd : ℚ) / (totalChecksOf cd : ℚ) * 100 := by
      push_cast
      positivity
    exact le_pyRound h0
  · rw [hs]
    have h1 : (passedChecksOf cd : ℚ) / (totalChecksOf cd : ℚ) ≤ 1 := by
      rw [div_le_one htQ]; exact hleQ
    have h2 : (passedChecksOf cd : ℚ) / (totalChecksOf cd : ℚ) * 100 ≤ ((100 : ℤ) : ℚ) := by
      push_cast
      nlinarith [htQ, hleQ]
    exact pyRound_le h2

/-- Witness for C1 at the empty crawl data. -/
theorem analyze_seo_score_invariant_witness :
    (({} : CrawlData).error = none) ∧
    ((analyze_seo {}).passedChecks ≤ (analyze_seo {}).totalChecks ∧
    (analyze_seo {}).seoScore =
      (if 0 < (analyze_seo {}).totalChecks then
        pyRound (((analyze_seo {}).passedChecks : ℚ) /
          ((analyze_seo {}).totalChecks) * 100)
      else 0) ∧
    0 ≤ (analyze_seo {}).seoScore ∧ (analyze_seo {}).seoScore ≤ 100) :=
  ⟨rfl, analyze_seo_score_invariant {} rfl⟩

/-! ## Claim C2 -/

/-- Counterexample to C2 as stated: on an input where every check runs,
`total_checks` is `9`, although eight checks each incrementing by at most one
could produce at most `8` (the heading analysis increments `total_checks`
twice: once for the H1-count check and once for the hierarchy check). -/
theorem analyze_seo_nine_checks :
    (analyze_seo cdAllChecks).totalChecks = 9 ∧
    ¬ (analyze_seo cdAllChecks).totalChecks ≤ 8 := by
  constructor <;> rw [analyze_seo_total cdAllChecks rfl] <;> decide

/-- C2 (amended): `analyze_seo` performs nine `total_checks` increments: the
title, meta-description, H1-count, heading-hierarchy and content-length checks
always run, while the image, paragraph, keyword and link checks are skipped
when their input collection is empty; `passed_checks` is incremented by one
exactly for each check whose pass condition holds. -/
theorem analyze_seo_check_counts (cd : CrawlData) (h : cd.error = none) :
    (analyze_seo cd).totalChecks =
      4 + ind (!cd.images.isEmpty) + ind (!cd.paragraphs.isEmpty) +
        ind (!cd.keywords.isEmpty) + ind (!cd.links.isEmpty) + 1 ∧
    (analyze_seo cd).passedChecks =
      ind (titlePasses cd) + ind (metaPasses cd) + ind (h1Passes cd) +
        ind (hierarchyPasses cd) + ind (imagesPasses cd) +
        ind (paragraphsPasses cd) + ind (keywordsPasses cd) +
        ind (linksPasses cd) + ind (contentPasses cd) := by
  constructor
  · rw [analyze_seo_total cd h]; rfl
  · rw [analyze_seo_passed cd h]; rfl

/-- Witness for the amended C2 at the empty crawl data. -/
theorem analyze_seo_check_counts_witness :
    (({} : CrawlData).error = none) ∧
    ((analyze_seo {}).totalChecks =
      4 + ind (!({} : CrawlData).images.isEmpty) +
        ind (!({} : CrawlData).paragraphs.isEmpty) +
        ind (!({} : CrawlData).keywords.isEmpty) +
        ind (!({} : CrawlData).links.isEmpty) + 1 ∧
    (analyze_seo {}).passedChecks =
      ind (titlePasses {}) + ind (metaPasses {}) + ind (h1Passes {}) +
        ind (hierarchyPasses {}) + ind (imagesPasses {}) +
        ind (paragraphsPasses {}) + ind (keywordsPasses {}) +
        ind (linksPasses {}) + ind (contentPasses {})) :=
  ⟨rfl, analyze_seo_check_counts {} rfl⟩

/-! ## Claim C3 -/

/-- Counterexample to C3 as stated: on `cdTwoDense` exactly five checks fail,
yet six issue strings are appended, because the failing keyword check appends
one issue per over-dense keyword (two here), not exactly one. -/
theorem analyze_seo_six_issues :
    (analyze_seo cdTwoDense).issuesLen = 6 ∧
    ind (!titlePasses cdTwoDense) + ind (!metaPasses cdTwoDense) +
      ind (!h1Passes cdTwoDense) + ind (!hierarchyPasses cdTwoDense) +
      ind (!cdTwoDense.images.isEmpty && !imagesPasses cdTwoDense) +
      ind (!cdTwoDense.paragraphs.isEmpty && !paragraphsPasses cdTwoDense) +
      ind (!cdTwoDense.keywords.isEmpty && !keywordsPasses cdTwoDense) +
      ind (!cdTwoDense.links.isEmpty && !linksPasses cdTwoDense) +
      ind (!contentPasses cdTwoDense) = 5 := by
  constructor
  · rw [analyze_seo_issuesLen cdTwoDense rfl]; decide
  · decide

/-- C3 (amended): for every non-error input, each failing check appends
exactly one issue string and exactly one recommendation string, except the
keyword check, which appends one issue string per over-dense keyword among the
first ten (at least one whenever it fails) and one recommendation string. -/
theorem analyze_seo_issue_counts (cd : CrawlData) (h : cd.error = none) :
    (analyze_seo cd).issuesLen = issuesLenOf cd ∧
    (analyze_seo cd).recsLen = recsLenOf cd ∧
    ((!cd.keywords.isEmpty && !keywordsPasses cd) = true →
      1 ≤ (densityIssues cd).length) := by
  refine ⟨analyze_seo_issuesLen cd h, analyze_seo_recsLen cd h, ?_⟩
  intro hkw
  unfold keywordsPasses at hkw
  cases hd : densityIssues cd with
  | nil => simp_all
  | cons x xs => simp

/-- Witness for the amended C3 at `cdTwoDense`. -/
theorem analyze_seo_issue_counts_witness :
    (cdTwoDense.error = none) ∧
    ((analyze_seo cdTwoDense).issuesLen = issuesLenOf cdTwoDense ∧
    (analyze_seo cdTwoDense).recsLen = recsLenOf cdTwoDense ∧
    ((!cdTwoDense.keywords.isEmpty && !keywordsPasses cdTwoDense) = true →
      1 ≤ (densityIssues cdTwoDense).length)) :=
  ⟨rfl, analyze_seo_issue_counts cdTwoDense rfl⟩

/-! ## Claim C10 -/

/-- C10: for every crawl-data input carrying an error, `analyze_seo` returns
exactly the dictionary `{'error': <the input's error message>, 'seo_score': 0}`:
no checks run, no issues, recommendations or details are produced (the `err`
constructor carries nothing else), and the input is not modified (the
embedding is pure). -/
theorem analyze_seo_error_early_return (cd : CrawlData) (e : String)
    (h : cd.error = some e) : analyze_seo cd = .err e 0 := by
  unfold analyze_seo
  rw [h]

/-- Witness for C10 at a concrete erroneous input. -/
theorem analyze_seo_error_early_return_witness :
    (({ error := some "boom" } : CrawlData).error = some "boom") ∧
    analyze_seo { error := some "boom" } = .err "boom" 0 :=
  ⟨rfl, analyze_seo_error_early_return { error := some "boom" } "boom" rfl⟩

end SeoTracker

namespace SeoTracker

/-! ## Keyword extraction: auxiliary lemmas -/

theorem firstOccurs_subset : ∀ (l : List String), ∀ x ∈ firstOccurs l, x ∈ l := by
  intro l
  induction l using firstOccurs.induct with
  | case1 => intro x hx; simp [firstOccurs] at hx
  | case2 w rest ih =>
    intro x hx
    rw [firstOccurs] at hx
    rcases List.mem_cons.mp hx with rfl | hx
    · exact List.mem_cons_self _ _
    · exact List.mem_cons_of_mem _ (List.mem_filter.mp (ih x hx)).1

theorem indexOf_filter_lt (p : String → Bool) :
    ∀ (l : List String) (a b : String), a ∈ l.filter p → b ∈ l.filter p →
      (l.filter p).indexOf a < (l.filter p).indexOf b →
      l.indexOf a < l.indexOf b := by
  intro l
  induction l with
  | nil => intro a b ha; simp at ha
  | cons x xs ih =>
    intro a b ha hb hlt
    by_cases hpx : p x = true
    · simp only [List.filter_cons, if_pos hpx] at ha hb hlt
      by_cases hax : a = x
      · subst hax
        have hba : b ≠ a := by
          rintro rfl
          rw [List.indexOf_cons_self] at hlt
          omega
        rw [List.indexOf_cons_self, List.indexOf_cons_ne _ (fun h => hba h.symm)]
        exact Nat.succ_pos _
      · by_cases hbx : b = x
        · subst hbx
          rw [List.indexOf_cons_self, List.indexOf_cons_ne _ (fun h => hax h.symm)] at hlt
          omega
        · have ha2 : a ∈ xs.filter p := by
            rcases List.mem_cons.mp ha with rfl | h
            · exact absurd rfl hax
            · exact h
          have hb2 : b ∈ xs.filter p := by
            rcases List.mem_cons.mp hb with rfl | h
            · exact absurd rfl hbx
            · exact h
          rw [List.indexOf_cons_ne _ (fun h => hax h.symm),
            List.indexOf_cons_ne _ (fun h => hbx h.symm)] at hlt ⊢
          · exact Nat.succ_lt_succ (ih a b ha2 hb2 (Nat.lt_of_succ_lt_succ hlt))
    · simp only [List.filter_cons, if_neg hpx] at ha hb hlt
      have hax : a ≠ x := by
        rintro rfl
        exact hpx (List.mem_filter.mp ha).2
      have hbx : b ≠ x := by
        rintro rfl
        exact hpx (List.mem_filter.mp hb).2
      rw [List.indexOf_cons_ne _ (fun h => hax h.symm),
        List.indexOf_cons_ne _ (fun h => hbx h.symm)]
      exact Nat.succ_lt_succ (ih a b ha hb hlt)

/-- The distinct words collected by `firstOccurs` are pairwise ordered by the
position of their first occurrence in the underlying list. -/
theorem firstOccurs_pairwise_indexOf (l : List String) :
    (firstOccurs l).Pairwise (fun a b => l.indexOf a < l.indexOf b) := by
  induction l using firstOccurs.induct with
  | case1 => simp [firstOccurs]
  | case2 w rest ih =>
    rw [firstOccurs]
    constructor
    · intro b hb
      have hbf := firstOccurs_subset _ b hb
      have hbw : b ≠ w := by simpa using (List.mem_filter.mp hbf).2
      rw [List.indexOf_cons_self, List.indexOf_cons_ne _ (fun h => hbw h.symm)]
      exact Nat.succ_pos _
    · apply List.Pairwise.imp_of_mem ?_ ih
      intro a b ha hb hab
      have haf := firstOccurs_subset _ a ha
      have hbf := firstOccurs_subset _ b hb
      have haw : a ≠ w := by simpa using (List.mem_filter.mp haf).2
      have hbw : b ≠ w := by simpa using (List.mem_filter.mp hbf).2
      rw [List.indexOf_cons_ne _ (fun h => haw h.symm),
        List.indexOf_cons_ne _ (fun h => hbw h.symm)]
      exact Nat.succ_lt_succ (indexOf_filter_lt _ rest a b haf hbf hab)

theorem countTokens_getElem? {fw : List String} {i : Nat} {w : String} {c : Nat}
    (h : (countTokens fw)[i]? = some (w, c)) :
    (firstOccurs fw)[i]? = some w := by
  unfold countTokens at h
  rw [List.getElem?_map] at h
  cases hfo : (firstOccurs fw)[i]? with
  | none => rw [hfo] at h; simp at h
  | some v =>
    rw [hfo] at h
    simp only [Option.map_some'] at h
    have hv : v = w := congrArg Prod.fst (Option.some.inj h)
    exact congrArg some hv

end SeoTracker

namespace SeoTracker

/-! ## Claim C5 -/

/-- C5: every keyword entry returned by `extract_keywords` has
`percentage = round(count / totalFilteredTokenCount * 100, 2)`, where the
denominator is the number of tokens surviving the stop-word filter, and when
zero tokens survive the filter the result is the empty list (no division by
zero occurs: the guard returns `0`). -/
theorem extract_keywords_percentage (tokens : List String) (ml n : Nat) :
    (filteredWords ml tokens = [] → extract_keywords tokens ml n = []) ∧
    List.Forall (fun k =>
        k.percentage =
          pyRoundTo 2 ((k.count : ℚ) / ((filteredWords ml tokens).length : ℚ) * 100))
      (extract_keywords tokens ml n) := by
  constructor
  · intro h
    unfold extract_keywords
    simp [h, countTokens, firstOccurs, mostCommon]
  · rw [List.forall_iff_forall_mem]
    intro k hk
    unfold extract_keywords at hk
    dsimp only at hk
    rcases List.mem_map.mp hk with ⟨wc, hwc, rfl⟩
    dsimp only
    by_cases hemp : (filteredWords ml tokens).isEmpty
    · rw [if_pos hemp]
      have hlen : (filteredWords ml tokens).length = 0 := by
        rw [List.isEmpty_iff.mp hemp]
        rfl
      rw [hlen, Nat.cast_zero, div_zero, zero_mul]
    · rw [if_neg hemp]

/-- Witness for C5: `["the"]` filters to nothing and yields the empty list;
on `["about", "seo", "seo"]` every returned entry satisfies the percentage
formula. -/
theorem extract_keywords_percentage_witness :
    (filteredWords 3 ["the"] = [] ∧ extract_keywords ["the"] 3 20 = []) ∧
    List.Forall (fun k =>
        k.percentage =
          pyRoundTo 2 ((k.count : ℚ) /
            ((filteredWords 3 ["about", "seo", "seo"]).length : ℚ) * 100))
      (extract_keywords ["about", "seo", "seo"] 3 20) :=
  ⟨⟨by decide, (extract_keywords_percentage ["the"] 3 20).1 (by decide)⟩,
   (extract_keywords_percentage ["about", "seo", "seo"] 3 20).2⟩

/-! ## Claim C6 -/

/-- C6: the keyword list returned by `extract_keywords` has at most `top_n`
entries and is ordered by count descending, entries with equal counts
appearing in the order of the first occurrence of their word in the filtered
token stream (stable ranking). -/
theorem extract_keywords_ranking (tokens : List String) (ml n : Nat) :
    (extract_keywords tokens ml n).length ≤ n ∧
    (extract_keywords tokens ml n).Pairwise (fun a b =>
      b.count < a.count ∨ (a.count = b.count ∧
        (filteredWords ml tokens).indexOf a.word <
          (filteredWords ml tokens).indexOf b.word)) := by
  constructor
  · unfold extract_keywords mostCommon
    dsimp only
    rw [List.length_map, List.length_take]
    omega
  · unfold extract_keywords mostCommon
    dsimp only
    have hsorted := List.sorted_insertionSort mcRel (countTokens (filteredWords ml tokens)).enum
    have hperm := List.perm_insertionSort mcRel (countTokens (filteredWords ml tokens)).enum
    have hnodup : (List.insertionSort mcRel (countTokens (filteredWords ml tokens)).enum).Nodup :=
      ((List.nodup_enum_map_fst _).of_map _).perm hperm.symm
    have hstrong : (List.insertionSort mcRel (countTokens (filteredWords ml tokens)).enum).Pairwise
        (fun e₁ e₂ : Nat × String × Nat =>
          e₂.2.2 < e₁.2.2 ∨ (e₁.2.2 = e₂.2.2 ∧
            (filteredWords ml tokens).indexOf e₁.2.1 <
              (filteredWords ml tokens).indexOf e₂.2.1)) := by
      apply List.Pairwise.imp_of_mem ?_ (hsorted.and hnodup)
      rintro ⟨i₁, w₁, c₁⟩ ⟨i₂, w₂, c₂⟩ h₁ h₂ ⟨hrel, hne⟩
      have m₁ := hperm.mem_iff.mp h₁
      have m₂ := hperm.mem_iff.mp h₂
      have g₁ := List.mem_enum_iff_getElem?.mp m₁
      have g₂ := List.mem_enum_iff_getElem?.mp m₂
      have fo₁ := countTokens_getElem? g₁
      have fo₂ := countTokens_getElem? g₂
      simp only [mcRel] at hrel
      rcases hrel with hlt | ⟨heq, hile⟩
      · exact Or.inl hlt
      · refine Or.inr ⟨heq, ?_⟩
        have hii : i₁ < i₂ := by
          rcases Nat.lt_or_ge i₁ i₂ with h | h
          · exact h
          · exfalso
            have hieq : i₁ = i₂ := Nat.le_antisymm hile h
            subst hieq
            rw [fo₁] at fo₂
            have hw : w₁ = w₂ := Option.some.inj fo₂
            subst hw
            subst heq
            exact hne rfl
        obtain ⟨hl₁, he₁⟩ := List.getElem?_eq_some_iff.mp fo₁
        obtain ⟨hl₂, he₂⟩ := List.getElem?_eq_some_iff.mp fo₂
        have hp := List.pairwise_iff_getElem.mp
          (firstOccurs_pairwise_indexOf (filteredWords ml tokens)) i₁ i₂ hl₁ hl₂ hii
        rw [he₁, he₂] at hp
        exact hp
    have hsnd : (((List.insertionSort mcRel
        (countTokens (filteredWords ml tokens)).enum)).map Prod.snd).Pairwise
        (fun x y : String × Nat => y.2 < x.2 ∨ (x.2 = y.2 ∧
          (filteredWords ml tokens).indexOf x.1 <
            (filteredWords ml tokens).indexOf y.1)) :=
      List.Pairwise.map _ (fun a b h => h) hstrong
    have htake := List.Pairwise.sublist (List.take_sublist n _) hsnd
    exact List.Pairwise.map _ (fun a b h => h) htake

end SeoTracker

namespace SeoTracker

/-! ## Claim C4 -/

/-- Counterexample to C4 as stated: a 304 response is not a 2xx status, yet
`crawl_webpage` returns the success dictionary with `status_code = 304`
(`raise_for_status` raises only for 4xx/5xx), not a tagged error. -/
theorem crawl_webpage_304_success :
    (crawl_webpage "http://e.com" (.response 304 {})).error = none ∧
    (crawl_webpage "http://e.com" (.response 304 {})).status_code = some 304 ∧
    ¬ (200 ≤ 304 ∧ 304 < 300) := by
  refine ⟨?_, ?_, by decide⟩ <;> rfl

/-- C4 (amended): `crawl_webpage` never raises: for every URL and fetch
outcome it returns a dictionary carrying the input URL.  On transport failure,
and on a 4xx/5xx response status, it returns the tagged error dictionary with
a human-readable message and the URL; on any other response status it returns
the success dictionary whose `status_code` equals the HTTP response status. -/
theorem crawl_webpage_spec (url : String) (outcome : FetchOutcome) :
    ((crawl_webpage url outcome).url = url) ∧
    (∀ msg, outcome = .failure msg →
      crawl_webpage url outcome =
        { error := some ("Error fetching web page: " ++ msg), url := url,
          status_code := none }) ∧
    (∀ status soup, outcome = .response status soup →
      400 ≤ status → status < 600 →
      crawl_webpage url outcome =
        { error := some ("Error fetching web page: " ++ httpErrorMsg status url),
          url := url, status_code := none }) ∧
    (∀ status soup, outcome = .response status soup →
      ¬ (400 ≤ status ∧ status < 600) →
      ((crawl_webpage url outcome).error = none ∧
        (crawl_webpage url outcome).status_code = some status)) := by
  refine ⟨?_, ?_, ?_, ?_⟩
  · cases outcome with
    | failure msg => rfl
    | response st soup =>
      unfold crawl_webpage
      dsimp only
      split_ifs <;> rfl
  · rintro msg rfl
    rfl
  · rintro st soup rfl h4 h6
    unfold crawl_webpage
    dsimp only
    rw [if_pos ⟨h4, h6⟩]
  · rintro st soup rfl hno
    unfold crawl_webpage
    dsimp only
    rw [if_neg hno]
    exact ⟨rfl, rfl⟩

/-- Witness for the amended C4 at a transport failure, a 404 and a 200. -/
theorem crawl_webpage_spec_witness :
    (crawl_webpage "http://e.com" (.failure "timeout") =
      { error := some ("Error fetching web page: " ++ "timeout"),
        url := "http://e.com", status_code := none }) ∧
    (crawl_webpage "http://e.com" (.response 404 {}) =
      { error := some ("Error fetching web page: " ++ httpErrorMsg 404 "http://e.com"),
        url := "http://e.com", status_code := none }) ∧
    ((crawl_webpage "http://e.com" (.response 200 {})).error = none ∧
      (crawl_webpage "http://e.com" (.response 200 {})).status_code = some 200) :=
  ⟨(crawl_webpage_spec "http://e.com" (.failure "timeout")).2.1 "timeout" rfl,
   (crawl_webpage_spec "http://e.com" (.response 404 {})).2.2.1 404 {} rfl
     (by decide) (by decide),
   (crawl_webpage_spec "http://e.com" (.response 200 {})).2.2.2 200 {} rfl
     (by decide)⟩

/-! ## Claim C7 -/

/-- Counterexample to C7 as stated: an `img` element with a missing `src` is
not skipped — it is appended with `src = ''`. -/
theorem extract_images_keeps_missing_src :
    extract_images [imgNoSrc] "http://e.com" = [⟨"", "", "", "", ""⟩] ∧
    ¬ (∀ e ∈ extract_images [imgNoSrc] "http://e.com", ¬ e.src = "") := by
  constructor
  · rfl
  · decide

/-- C7 (amended): `extract_images` produces exactly one entry per `img`
element — elements with a missing (or empty) `src` are included with
`src = ''`, not skipped — and a non-empty `src` that is relative (leading `/`
or no scheme/host) is resolved against the base URL. -/
theorem extract_images_spec (imgs : List ImgTag) (base_url : String) :
    (extract_images imgs base_url).length = imgs.length ∧
    (extract_images imgs base_url).map ImageOut.src =
      imgs.map (fun img =>
        let src0 := img.src.getD ""
        if ¬ src0.isEmpty ∧ (src0.startsWith "/" ∨ netloc src0 = "") then
          urljoin base_url src0
        else src0) := by
  constructor
  · simp [extract_images]
  · rw [extract_images, List.map_map]
    rfl

end SeoTracker

namespace SeoTracker

/-! ## Claim C8: auxiliary lemmas -/

theorem children_mem_descList : ∀ (cs : List HTree), ∀ c ∈ cs, c ∈ HTree.descList cs := by
  intro cs
  induction cs with
  | nil => simp
  | cons x xs ih =>
    intro c hc
    rw [HTree.descList]
    rcases List.mem_cons.mp hc with rfl | h
    · exact List.mem_cons_self _ _
    · exact List.mem_cons_of_mem _ (List.mem_append_right _ (ih c h))

/-- In a duplicate-free descendant list, the index of the `i`-th child is the
total size (element itself plus its descendants) of the earlier children. -/
theorem descList_indexOf : ∀ (cs : List HTree) (i : Nat) (hi : i < cs.length),
    (HTree.descList cs).Nodup →
    (HTree.descList cs).indexOf (cs.get ⟨i, hi⟩) =
      ((cs.take i).map (fun c => 1 + c.descendants.length)).sum := by
  intro cs
  induction cs with
  | nil => intro i hi; simp at hi
  | cons c cs' ih =>
    intro i hi hnd
    cases i with
    | zero =>
      rw [HTree.descList]
      simp [List.indexOf_cons_self]
    | succ j =>
      rw [HTree.descList] at hnd ⊢
      rw [List.nodup_cons] at hnd
      obtain ⟨hcnot, hnd2⟩ := hnd
      rw [List.nodup_append] at hnd2
      obtain ⟨hnda, hndb, hdisj⟩ := hnd2
      have hj : j < cs'.length := by simpa using hi
      have hget : (c :: cs').get ⟨j + 1, hi⟩ = cs'.get ⟨j, hj⟩ := rfl
      have hmem : cs'.get ⟨j, hj⟩ ∈ HTree.descList cs' :=
        children_mem_descList _ _ (List.get_mem cs' j hj)
      have hne : cs'.get ⟨j, hj⟩ ≠ c := by
        rintro heq
        exact hcnot (List.mem_append_right _ (heq ▸ hmem))
      have hnotdesc : cs'.get ⟨j, hj⟩ ∉ c.descendants :=
        fun hmem2 => hdisj hmem2 hmem
      rw [hget, List.indexOf_cons_ne _ (fun h => hne h.symm),
        List.indexOf_append_of_not_mem hnotdesc, ih j hj hndb]
      simp [List.length_append]
      omega

theorem HTree.get?_append : ∀ (p q : List Nat) (t : HTree),
    t.get? (p ++ q) = (t.get? p).bind (fun s => s.get? q) := by
  intro p
  induction p with
  | nil => intro q t; simp [HTree.get?]
  | cons i p' ih =>
    intro q t
    cases t with
    | node nm cs =>
      rw [List.cons_append]
      show (match cs[i]? with
        | some c => c.get? (p' ++ q)
        | none => none) =
        ((match cs[i]? with
          | some c => c.get? p'
          | none => none).bind (fun s => s.get? q))
      cases cs[i]? with
      | none => rfl
      | some c => exact ih q c

/-! ## Claim C8 -/

/-- Counterexample to C8 as stated: in `div[a[b], c]`, the element `c` is the
second immediate child of its parent (1-based sibling ordinal `2`), but
`get_element_position` returns `3`, because `find_all()` lists all descendants
of the parent (`a`, `b`, `c`) — not only the immediate siblings. -/
theorem get_element_position_counts_descendants :
    get_element_position exTree [1] = 3 ∧ ¬ get_element_position exTree [1] = 2 := by
  constructor <;> decide

/-- C8 (amended): for an element that is the `i`-th immediate child of its
parent (and when the parent's descendant list has no duplicate subtrees, so
that `list.index` finds the element itself), `position` is `1` plus the total
number of descendant elements of the parent preceding the element in document
order — that is, `1 + Σ over the earlier siblings of (1 + size of that
sibling's subtree)`; it equals the sibling ordinal only when the earlier
siblings have no children.  An element with no parent gets position `0`. -/
theorem get_element_position_preorder (root : HTree) (pp : List Nat)
    (nm : String) (cs : List HTree) (i : Nat)
    (hp : root.get? pp = some (.node nm cs))
    (hi : i < cs.length)
    (hnd : (HTree.descList cs).Nodup) :
    get_element_position root (pp ++ [i]) =
      1 + ((cs.take i).map (fun c => 1 + c.descendants.length)).sum ∧
    get_element_position root [] = 0 := by
  constructor
  · have hchild : root.get? (pp ++ [i]) = some (cs.get ⟨i, hi⟩) := by
      rw [HTree.get?_append, hp]
      show (.node nm cs : HTree).get? [i] = _
      simp [HTree.get?, List.getElem?_eq_getElem hi]
    have hdrop : (pp ++ [i]).dropLast = pp := List.dropLast_concat
    unfold get_element_position
    rw [if_neg (by simp), hdrop, hp, hchild]
    dsimp only
    rw [HTree.descendants]
    have hmem : cs.get ⟨i, hi⟩ ∈ HTree.descList cs :=
      children_mem_descList _ _ (List.get_mem cs i hi)
    rw [if_pos (by simpa using hmem)]
    rw [descList_indexOf cs i hi hnd]
    omega
  · rfl

/-- Witness for the amended C8 at `exTree` with the second child. -/
theorem get_element_position_preorder_witness :
    (exTree.get? [] = some (.node "div" [.node "a" [.node "b" []], .node "c" []])) ∧
    (1 < ([HTree.node "a" [.node "b" []], .node "c" []] : List HTree).length) ∧
    ((HTree.descList [.node "a" [.node "b" []], .node "c" []]).Nodup) ∧
    (get_element_position exTree ([] ++ [1]) =
      1 + ((([HTree.node "a" [.node "b" []], .node "c" []] : List HTree).take 1).map
        (fun c => 1 + c.descendants.length)).sum ∧
      get_element_position exTree [] = 0) :=
  ⟨rfl, by decide, by decide,
   get_element_position_preorder exTree [] "div"
     [HTree.node "a" [.node "b" []], .node "c" []] 1 rfl (by decide) (by decide)⟩

end SeoTracker

namespace SeoTracker

/-! ## Claim C9 -/

/-- Counterexample to C9 as stated: when the page URL itself fails the
`https?://host` pattern, its extracted host is also `''`, so links whose href
does not match the pattern compare equal and are classified *internal*, not
external — here three unmatched links make the check pass. -/
theorem links_nonmatching_counted_internal :
    extract_domain "notaurl" = "" ∧
    extract_domain "x" = "" ∧
    (internalLinks cdPlainLinks).length = 3 ∧
    (externalLinks cdPlainLinks).length = 0 ∧
    linksPasses cdPlainLinks = true := by
  refine ⟨?_, ?_, ?_, ?_, ?_⟩ <;> decide

/-- C9 (amended): for every input with a non-empty links list, a link with a
non-empty href is classified internal exactly when the host captured from its
href by the `https?://host` pattern equals the host captured from the page's
own URL (both hosts may be the empty string, so a non-matching href is
external only when the page URL itself matches); links with an empty href are
counted neither internal nor external; the check passes — incrementing
`passed_checks` — exactly when the number of internal links is at least 3. -/
theorem analyzeLinks_classification (cd : CrawlData) (a : Analysis)
    (h : ¬ cd.links.isEmpty) :
    (∀ l ∈ cd.links, ¬ l.href.isEmpty →
      (l ∈ internalLinks cd ↔ extract_domain l.href = extract_domain cd.url)) ∧
    (∀ l ∈ cd.links, l.href.isEmpty →
      l ∉ internalLinks cd ∧ l ∉ externalLinks cd) ∧
    (analyzeLinks cd a).details.links =
      some ⟨cd.links.length, (internalLinks cd).length, (externalLinks cd).length⟩ ∧
    (analyzeLinks cd a).passed_checks =
      a.passed_checks +
        (if internal_links_min ≤ (internalLinks cd).length then 1 else 0) := by
  refine ⟨?_, ?_, ?_, ?_⟩
  · intro l hl hne
    unfold internalLinks consideredLinks
    simp [List.mem_filter, hl, hne]
  · intro l hl he
    unfold internalLinks externalLinks consideredLinks
    simp [List.mem_filter, he]
  · unfold analyzeLinks
    rw [if_neg h]
    dsimp only
    split_ifs <;> rfl
  · rw [analyzeLinks_passed]
    have hb : (!cd.links.isEmpty) = true := by
      simpa using h
    unfold linksPasses ind
    rw [hb]
    simp only [Bool.true_and]
    split_ifs with h1 h2 h2 <;> simp_all

/-- Witness for the amended C9 on a mixed link list. -/
theorem analyzeLinks_classification_witness :
    (¬ cdMixedLinks.links.isEmpty) ∧
    ((∀ l ∈ cdMixedLinks.links, ¬ l.href.isEmpty →
      (l ∈ internalLinks cdMixedLinks ↔
        extract_domain l.href = extract_domain cdMixedLinks.url)) ∧
    (∀ l ∈ cdMixedLinks.links, l.href.isEmpty →
      l ∉ internalLinks cdMixedLinks ∧ l ∉ externalLinks cdMixedLinks) ∧
    (analyzeLinks cdMixedLinks emptyAnalysis).details.links =
      some ⟨cdMixedLinks.links.length, (internalLinks cdMixedLinks).length,
        (externalLinks cdMixedLinks).length⟩ ∧
    (analyzeLinks cdMixedLinks emptyAnalysis).passed_checks =
      emptyAnalysis.passed_checks +
        (if internal_links_min ≤ (internalLinks cdMixedLinks).length then 1
         else 0)) :=
  ⟨by decide, analyzeLinks_classification cdMixedLinks emptyAnalysis (by decide)⟩

end SeoTracker
